import Mathlib

/-!
Verification of the misharp-gif-maker pipeline (src/gif_utils.py,
src/video_utils.py, src/app.py, src/streamlit_app.py) against its
natural-language specification.

Shallow embedding conventions:
* a decoded raster (`PIL.Image.Image`) is an `Img`: width, height and a total
  pixel function; Python floats are exact rationals (`Rat`), Python ints are
  `Int`/`Nat`;
* external kernels that cannot be embedded pixel-exactly (PIL decoding,
  alpha compositing, Lanczos resampling, the actual quantizer backends,
  palette remapping) are fields of an environment record `Env`; the control
  flow around them is translated line by line from the source;
* fallible Python code (raising exceptions) returns `Except`;
* effectful calls (the quantizer attempts of `_quantize_safe`, the two
  external ffmpeg passes) are additionally reflected as explicit traces:
  the list of quantizer invocations made, and the list of command lines
  handed to `subprocess.run`.
-/

/-- An RGB triple (one pixel / one fill color). -/
structure RGB where
  r : Nat
  g : Nat
  b : Nat
deriving DecidableEq, Repr

/-- An RGBA pixel: color plus alpha, as decoded from the source image. -/
structure RGBA where
  color : RGB
  alpha : Nat
deriving DecidableEq, Repr

def white : RGB := ⟨255, 255, 255⟩

def black : RGB := ⟨0, 0, 0⟩

/-- A decoded opaque raster: the `Frame` of the spec.  Pixels are a total
function; only coordinates inside `width × height` are meaningful. -/
structure Img where
  width : Nat
  height : Nat
  pix : Nat → Nat → RGB

def emptyImg : Img := ⟨0, 0, fun _ _ => black⟩

instance : Inhabited Img := ⟨emptyImg⟩

/-- PIL image modes relevant to `_composite_on_bg` in src/gif_utils.py. -/
inductive PMode where
  | rgb
  | rgba
  | la
  | p
  | other
deriving DecidableEq, Repr

/-- A raster as decoded by `PIL.Image.open` before normalization: carries the
mode and whether a `P`-mode image has a transparency key in `info`. -/
structure RawImg where
  width : Nat
  height : Nat
  mode : PMode
  transparencyKey : Bool
  pixa : Nat → Nat → RGBA

/-- A quantized (`P`-mode) image as returned by `Image.quantize`: the raster
plus the number of distinct palette entries it carries. -/
structure PImage where
  img : Img
  paletteSize : Nat

/-- `Image.Dither` values used by the pipeline. -/
inductive Dither where
  | NONE
  | ORDERED
  | FLOYDSTEINBERG
deriving DecidableEq, Repr

/-- `Image.Quantize` method enum members probed by `_quantize_safe`. -/
inductive QMethod where
  | LIBIMAGEQUANT
  | FASTOCTREE
  | MEDIANCUT
deriving DecidableEq, Repr

/-- One invocation of `Image.quantize` made by `_quantize_safe`:
which method override (none = engine default), the color count, and the
dither argument it was given. -/
structure QCall where
  method : Option QMethod
  colors : Int
  dither : Dither
deriving DecidableEq, Repr

/-- Errors raised by the image pipeline.  `valueError` is the
`ValueError("frames empty")` of `_build_palette_seed_from_frames`;
`quantizeFailed` is the `RuntimeError(f"quantize failed. last=..., final=...")`
of `_quantize_safe` — note it carries exactly the last fallback error and the
final default-attempt error; `decodeError` is any exception propagating out of
`Image.open`/`load`. -/
inductive PipeErr where
  | valueError (msg : String)
  | quantizeFailed (last : Option String) (final : String)
  | decodeError (e : String)
deriving DecidableEq, Repr

/-- Raw byte blobs handed to the pipeline. -/
def Bytes := List Nat

/-- The environment of external kernels (PIL internals) the pipeline calls
into.  Control flow never depends on anything but the listed results. -/
structure Env where
  /-- `Image.open(BytesIO(b)); im.load()` — decoding may raise. -/
  decode : Bytes → Except String RawImg
  /-- pixel kernel of `Image.alpha_composite(bg, rgba).convert("RGB")`. -/
  alphaOver : RGB → RGBA → RGB
  /-- pixel kernel of `img.resize((w, h), LANCZOS)`. -/
  resample : Img → Nat → Nat → Nat → Nat → RGB
  /-- whether `getattr(Image.Quantize, name, None)` is non-None. -/
  hasMethod : QMethod → Bool
  /-- `im.quantize(colors=c, method=m, dither=d)` (m = none ⇒ no method
  argument); may raise. -/
  quantize : Option QMethod → Img → Int → Dither → Except String PImage
  /-- pixel kernel of `im.quantize(palette=seed, dither=d)`. -/
  qpal : Img → PImage → Dither → Nat → Nat → RGB

/-- `Image.new("RGB", (w, h), c)`; with no color argument PIL fills with 0,
i.e. `newImg w h black`. -/
def newImg (w h : Nat) (c : RGB) : Img := ⟨w, h, fun _ _ => c⟩

/-- `dst.paste(src, (ox, oy))`: pixels of `src` overwrite the window of `dst`
starting at `(ox, oy)`; the destination size is unchanged (PIL clips the
source at the destination border). -/
def paste (dst src : Img) (ox oy : Nat) : Img :=
  ⟨dst.width, dst.height, fun x y =>
    if ox ≤ x ∧ x < ox + src.width ∧ oy ≤ y ∧ y < oy + src.height then
      src.pix (x - ox) (y - oy)
    else dst.pix x y⟩

/-- Python `round` (banker's rounding, ties to even) on an exact rational,
composed with `int(...)`. -/
def pyRound (q : Rat) : Int :=
  let f : Int := ⌊q⌋
  let r : Rat := q - (f : Rat)
  if r < 1/2 then f
  else if 1/2 < r then f + 1
  else if f % 2 = 0 then f else f + 1

/-- `_composite_on_bg` (src/gif_utils.py lines 18-24): alpha/transparent
sources are composited over the background; everything else is converted to
RGB. -/
def composite_on_bg (env : Env) (im : RawImg) (bg : RGB) : Img :=
  if im.mode = PMode.rgba ∨ im.mode = PMode.la ∨
      (im.mode = PMode.p ∧ im.transparencyKey) then
    ⟨im.width, im.height, fun x y => env.alphaOver bg (im.pixa x y)⟩
  else
    ⟨im.width, im.height, fun x y => (im.pixa x y).color⟩

/-- `_resize_keep_aspect` (src/gif_utils.py lines 27-34).  Python's
`if not max_width` treats both `None` and `0` as "no resize";
`new_h = int(round(h * (max_width / w)))`. -/
def resize_keep_aspect (env : Env) (im : Img) (maxWidth : Option Nat) : Img :=
  match maxWidth with
  | none => im
  | some mw =>
    if mw = 0 then im
    else if im.width ≤ mw then im
    else
      let newH : Nat := (pyRound ((im.height : Rat) * ((mw : Rat) / (im.width : Rat)))).toNat
      ⟨mw, newH, env.resample im mw newH⟩

/-- `max(im.size[0] for im in frames)` over a non-empty list (0 on empty). -/
def maxWidths (frames : List Img) : Nat :=
  (frames.map Img.width).foldl Nat.max 0

/-- `max(im.size[1] for im in frames)` over a non-empty list (0 on empty). -/
def maxHeights (frames : List Img) : Nat :=
  (frames.map Img.height).foldl Nat.max 0

/-- `_unify_canvas` (src/gif_utils.py lines 37-53): pad every frame onto the
largest canvas, centered, background-filled; frames already at the maximum
size are passed through unchanged. -/
def unify_canvas (frames : List Img) (bg : RGB) : List Img :=
  if frames.isEmpty then frames
  else
    let maxW := maxWidths frames
    let maxH := maxHeights frames
    frames.map fun im =>
      if im.width = maxW ∧ im.height = maxH then im
      else paste (newImg maxW maxH bg) im ((maxW - im.width) / 2) ((maxH - im.height) / 2)

/-- Python `str.lower()`, modeled character-wise on the basic-latin alphabet
(the names the pipeline compares against are all ASCII). -/
def pyLower (s : String) : String := ⟨s.data.map Char.toLower⟩

/-- `_dither_mode` (src/gif_utils.py lines 56-62).  The argument is
`Option String` because the Python source guards with `(dither or "")`. -/
def dither_mode (dither : Option String) : Dither :=
  let d := pyLower (dither.getD "")
  if d = "floyd_steinberg" ∨ d = "floyd" ∨ d = "fs" then Dither.FLOYDSTEINBERG
  else if d = "bayer" ∨ d = "ordered" then Dither.ORDERED
  else Dither.NONE

/-- `colors = 256 if colors > 256 else (2 if colors < 2 else int(colors))`
(src/gif_utils.py lines 71 and 107). -/
def clampColors (colors : Int) : Int :=
  if colors > 256 then 256 else if colors < 2 then 2 else colors

/-- The fixed probe order of `_quantize_safe`:
`("LIBIMAGEQUANT", "FASTOCTREE", "MEDIANCUT")`. -/
def methodOrder : List QMethod :=
  [QMethod.LIBIMAGEQUANT, QMethod.FASTOCTREE, QMethod.MEDIANCUT]

/-- The `for m in methods: try ... except` loop of `_quantize_safe`
(src/gif_utils.py lines 80-92), with `lastErr` the running `last_err`
variable; the `[]` case is the final method-less attempt and the
`RuntimeError` raise.  Besides the result it returns the trace of quantizer
invocations actually made. -/
def qsAttempts (env : Env) (im : Img) (c : Int) :
    List QMethod → Option String → Except PipeErr PImage × List QCall
  | [], lastErr =>
    match env.quantize none im c Dither.NONE with
    | .ok r => (.ok r, [⟨none, c, Dither.NONE⟩])
    | .error e => (.error (.quantizeFailed lastErr e), [⟨none, c, Dither.NONE⟩])
  | m :: ms, lastErr =>
    match env.quantize (some m) im c Dither.NONE with
    | .ok r => (.ok r, [⟨some m, c, Dither.NONE⟩])
    | .error e =>
      let rest := qsAttempts env im c ms (some e)
      (rest.1, ⟨some m, c, Dither.NONE⟩ :: rest.2)

/-- `_quantize_safe` (src/gif_utils.py lines 65-92): clamp the color count,
keep the available methods in the fixed order, try them in turn with
dithering disabled, fall back to a method-less call, raise `RuntimeError`
only when everything failed. -/
def quantize_safe (env : Env) (im : Img) (colors : Int) :
    Except PipeErr PImage × List QCall :=
  let c := clampColors colors
  let methods := methodOrder.filter fun m => env.hasMethod m
  qsAttempts env im c methods none

/-- Python `list(range(0, n, step))` for `step ≥ 1`. -/
def pyRangeStep (n step : Nat) : List Nat :=
  List.range' 0 ((n + step - 1) / step) step

/-- The frame indices sampled by `_build_palette_seed_from_frames`
(src/gif_utils.py lines 109-114). -/
def palettePicks (n sampleCount : Nat) : List Nat :=
  if n ≤ sampleCount then List.range n
  else (pyRangeStep n (Nat.max 1 (n / sampleCount))).take sampleCount

/-- The composite raster of `_build_palette_seed_from_frames`
(src/gif_utils.py lines 116-119): `Image.new("RGB", (w, h * len(picks)))`
— default fill, i.e. black — with `frames[fi]` pasted at `(0, idx * h)`. -/
def buildStack (frames : List Img) (picks : List Nat) (w h : Nat) : Img :=
  picks.enum.foldl
    (fun acc p => paste acc (frames.getD p.2 emptyImg) 0 (p.1 * h))
    (newImg w (h * picks.length) black)

/-- `_build_palette_seed_from_frames` (src/gif_utils.py lines 95-123). -/
def build_palette_seed_from_frames (env : Env) (frames : List Img)
    (colors : Int) (sampleCount : Nat) :
    Except PipeErr PImage × List QCall :=
  if frames.isEmpty then (.error (.valueError "frames empty"), [])
  else
    let c := clampColors colors
    let picks := palettePicks frames.length sampleCount
    let w := (frames.headD emptyImg).width
    let h := (frames.headD emptyImg).height
    quantize_safe env (buildStack frames picks w h) c

/-- `im.quantize(palette=palette_seed, dither=dither_mode)`
(src/gif_utils.py line 158): remapping preserves the raster size. -/
def quantizeToPalette (env : Env) (im : Img) (seed : PImage) (d : Dither) : Img :=
  ⟨im.width, im.height, env.qpal im seed d⟩

/-- The arguments of the final `pal_frames[0].save(...)` call
(src/gif_utils.py lines 164-173); standing in for the encoded byte buffer. -/
structure GifRec where
  frames : List Img
  durationMs : Int
  loop : Int
  optimize : Bool
  disposal : Nat

instance : Inhabited GifRec := ⟨⟨[], 0, 0, false, 0⟩⟩

/-- The `EncodeConfig` of `build_gif_from_images`: its keyword parameters. -/
structure ImgCfg where
  delay : Rat
  loopForever : Bool
  unifyCanvas : Bool
  maxWidth : Option Nat
  colors : Int
  dither : Option String

/-- The per-file decode/normalize loop of `build_gif_from_images`
(src/gif_utils.py lines 138-144); the first decode failure aborts. -/
def normalizeAll (env : Env) :
    List (String × Bytes) → Option Nat → Except PipeErr (List Img)
  | [], _ => .ok []
  | f :: rest, mw =>
    match env.decode f.2 with
    | .error e => .error (.decodeError e)
    | .ok raw =>
      match normalizeAll env rest mw with
      | .error e => .error e
      | .ok tl => .ok (resize_keep_aspect env (composite_on_bg env raw white) mw :: tl)

/-- The tail of `build_gif_from_images` after normalization
(src/gif_utils.py lines 152-174), taking the frames that are handed to the
palette builder and the per-frame quantizer. -/
def buildFromFrames (env : Env) (cfg : ImgCfg) (frames : List Img) :
    Except PipeErr (Option GifRec) :=
  match (build_palette_seed_from_frames env frames cfg.colors 12).1 with
  | .error e => .error e
  | .ok seed =>
    .ok (some ⟨frames.map fun im => quantizeToPalette env im seed (dither_mode cfg.dither),
               pyRound (cfg.delay * 1000),
               if cfg.loopForever then 0 else 1,
               false, 2⟩)

/-- `build_gif_from_images` (src/gif_utils.py lines 126-174). -/
def build_gif_from_images (env : Env) (files : List (String × Bytes))
    (cfg : ImgCfg) : Except PipeErr (Option GifRec) :=
  if files.isEmpty then .ok none
  else
    match normalizeAll env files cfg.maxWidth with
    | .error e => .error e
    | .ok fs =>
      if fs.isEmpty then .ok none
      else
        buildFromFrames env cfg (if cfg.unifyCanvas then unify_canvas fs white else fs)

/-- A token of an external command line: a literal string, or a Python float
rendered through `str(...)`/format (kept symbolic as its exact rational
value). -/
inductive Tok where
  | s (x : String)
  | q (x : Rat)
deriving DecidableEq, Repr

/-- The two external command lines built by `build_gif_from_video_ffmpeg`
(temp-file paths abbreviated to their basenames). -/
structure VideoCmds where
  cmdPalette : List Tok
  cmdGif : List Tok

/-- `scale_filter` of src/video_utils.py lines 52-55; Python `if max_width:`
is falsy for both `None` and `0`. -/
def videoScaleFilter (maxWidth : Option Nat) : String :=
  match maxWidth with
  | some w => if w = 0 then "scale=iw:ih:flags=lanczos"
              else "scale=" ++ Nat.repr w ++ ":-1:flags=lanczos"
  | none => "scale=iw:ih:flags=lanczos"

/-- `dither_mode` of src/video_utils.py line 58. -/
def videoDitherName (dither : String) : String :=
  if dither = "floyd" then "floyd_steinberg" else "none"

/-- The shared `fps={fps},{scale_filter}` head of both filter expressions of
src/video_utils.py (lines 67 and 81). -/
def videoFilterBase (fps : Nat) (maxWidth : Option Nat) : String :=
  "fps=" ++ Nat.repr fps ++ "," ++ videoScaleFilter maxWidth

/-- The `-vf` argument of the palette pass (src/video_utils.py line 67). -/
def videoVfPalette (fps : Nat) (maxWidth : Option Nat) (colors : Nat) : String :=
  videoFilterBase fps maxWidth ++
    (",palettegen=stats_mode=full:max_colors=" ++ Nat.repr colors)

/-- The `-lavfi` argument of the apply pass (src/video_utils.py line 81). -/
def videoVfGif (fps : Nat) (maxWidth : Option Nat) (dither : String) : String :=
  videoFilterBase fps maxWidth ++
    ("[x];[x][1:v]paletteuse=dither=" ++ videoDitherName dither ++ ":diff_mode=rectangle")

/-- The `ss` clip-start arguments (src/video_utils.py lines 41-43). -/
def videoSsArgs (startSec : Option Rat) : List Tok :=
  match startSec with
  | some s => if s ≥ 0 then [Tok.s "-ss", Tok.q s] else []
  | none => []

/-- The `dur` clip-length arguments (src/video_utils.py lines 45-49). -/
def videoDurArgs (startSec endSec : Option Rat) : List Tok :=
  match endSec, startSec with
  | some e, some s => if e > s then [Tok.s "-t", Tok.q (e - s)] else []
  | some e, none => if e > 0 then [Tok.s "-to", Tok.q e] else []
  | none, _ => []

/-- `build_gif_from_video_ffmpeg` (src/video_utils.py lines 10-91) as the two
command lines it unconditionally hands to `subprocess.run`.  The source
contains no validation of the clip window: it only decides whether to emit
`-ss`/`-t`, then always runs both passes. -/
def build_gif_from_video_ffmpeg (fps : Nat) (maxWidth : Option Nat)
    (loopForever : Bool) (startSec endSec : Option Rat)
    (colors : Nat) (dither : String) : VideoCmds :=
  let ss := videoSsArgs startSec
  let dur := videoDurArgs startSec endSec
  let loopFlag : Int := if loopForever then 0 else 1
  ⟨[Tok.s "ffmpeg"] ++ ss ++ [Tok.s "-i", Tok.s "input_video.mp4"] ++ dur ++
     [Tok.s "-vf", Tok.s (videoVfPalette fps maxWidth colors),
      Tok.s "-y", Tok.s "palette.png"],
   [Tok.s "ffmpeg"] ++ ss ++ [Tok.s "-i", Tok.s "input_video.mp4"] ++ dur ++
     [Tok.s "-i", Tok.s "palette.png",
      Tok.s "-lavfi", Tok.s (videoVfGif fps maxWidth dither),
      Tok.s "-loop", Tok.s (Int.repr loopFlag),
      Tok.s "-y", Tok.s "output.gif"]⟩

/-- The external processes `build_gif_from_video_ffmpeg` invokes, in order
(src/video_utils.py lines 87-88): both passes, always. -/
def videoInvocations (vc : VideoCmds) : List (List Tok) :=
  [vc.cmdPalette, vc.cmdGif]

/-- The `vid_make` button handler of src/streamlit_app.py lines 226-242: the
`end ≤ start` guard lives here, in the caller, not in the encoder. -/
def vid_make_handler (clipOn : Bool) (clipStart clipEnd : Rat) (fps : Nat)
    (vidWidth : Option Nat) (vidLoop : Bool) (vidColors : Nat)
    (vidDither : String) : Except String VideoCmds :=
  if clipOn ∧ clipEnd ≤ clipStart then
    .error "clip range invalid: end must exceed start"
  else
    .ok (build_gif_from_video_ffmpeg fps vidWidth vidLoop
      (if clipOn then some clipStart else none)
      (if clipOn then some clipEnd else none) vidColors vidDither)

/-- The image-path button handler of src/app.py lines 417-431: the encoder is
invoked iff at least 2 frames are present; otherwise only an error message is
shown. -/
def app_img_button_invokes (frameCount : Nat) : Bool :=
  !(frameCount < 2)

/-- The two command lines of `make_gif_from_frames` (src/app.py lines
148-202); input/palette/output paths abbreviated. -/
structure TwoPass where
  pass1 : List Tok
  pass2 : List Tok

/-- `scale` of src/app.py line 176 / line 232. -/
def appScale (width : Nat) : String :=
  "scale=" ++ Nat.repr width ++ ":-1:flags=lanczos"

/-- `vf1` of src/app.py lines 177-180. -/
def appVf1 (width : Nat) (padSquare : Bool) (padColor : String) : String :=
  if padSquare then
    appScale width ++ (",pad=" ++ Nat.repr width ++ ":" ++ Nat.repr width ++
      ":(ow-iw)/2:(oh-ih)/2:color=" ++ padColor)
  else appScale width

/-- `make_gif_from_frames` (src/app.py lines 148-202) as its two command
lines; both interpolate the same local `vf1`. -/
def make_gif_from_frames_cmds (width : Nat) (framerateStr : String)
    (colors : Nat) (dither : String) (padSquare : Bool) (padColor : String)
    (loopInfinite : Bool) : TwoPass :=
  let vf1 := appVf1 width padSquare padColor
  let loopValue := if loopInfinite then "0" else "-1"
  ⟨[Tok.s "ffmpeg", Tok.s "-y", Tok.s "-framerate", Tok.s framerateStr,
    Tok.s "-i", Tok.s "frame_pattern",
    Tok.s "-vf", Tok.s (vf1 ++ (",palettegen=max_colors=" ++ Nat.repr colors)),
    Tok.s "palette.png"],
   [Tok.s "ffmpeg", Tok.s "-y", Tok.s "-framerate", Tok.s framerateStr,
    Tok.s "-i", Tok.s "frame_pattern", Tok.s "-i", Tok.s "palette.png",
    Tok.s "-lavfi", Tok.s (vf1 ++ (" [x]; [x][1:v] paletteuse=dither=" ++ dither)),
    Tok.s "-loop", Tok.s loopValue, Tok.s "output.gif"]⟩

/-- `vf_base` of src/app.py lines 233-236. -/
def appVfBase (width fps : Nat) (padSquare : Bool) (padColor : String) : String :=
  if padSquare then
    "fps=" ++ Nat.repr fps ++ "," ++ appScale width ++
      (",pad=" ++ Nat.repr width ++ ":" ++ Nat.repr width ++
        ":(ow-iw)/2:(oh-ih)/2:color=" ++ padColor)
  else "fps=" ++ Nat.repr fps ++ "," ++ appScale width

/-- `make_gif_from_video` (src/app.py lines 211-263) as its two command
lines; both interpolate the same local `vf_base`. -/
def make_gif_from_video_cmds (width fps colors : Nat) (dither : String)
    (padSquare : Bool) (padColor : String) (startSec durationSec : Rat)
    (loopInfinite : Bool) : TwoPass :=
  let vfBase := appVfBase width fps padSquare padColor
  let ssArgs := if startSec > 0 then [Tok.s "-ss", Tok.q startSec] else []
  let tArgs := if durationSec > 0 then [Tok.s "-t", Tok.q durationSec] else []
  let loopValue := if loopInfinite then "0" else "-1"
  ⟨[Tok.s "ffmpeg", Tok.s "-y"] ++ ssArgs ++ [Tok.s "-i", Tok.s "input_video"] ++
     tArgs ++ [Tok.s "-vf", Tok.s (vfBase ++ (",palettegen=max_colors=" ++ Nat.repr colors)),
       Tok.s "palette.png"],
   [Tok.s "ffmpeg", Tok.s "-y"] ++ ssArgs ++ [Tok.s "-i", Tok.s "input_video"] ++
     tArgs ++ [Tok.s "-i", Tok.s "palette.png",
       Tok.s "-lavfi", Tok.s (vfBase ++ (" [x]; [x][1:v] paletteuse=dither=" ++ dither)),
       Tok.s "-loop", Tok.s loopValue, Tok.s "output.gif"]⟩

/-- Modelled from the spec: the GIF container loop-count semantics of the
external interface, which is not part of this repository.  Spec §6: the
loop-count flag written at container-write time means "0 = infinite,
-1/1 = once"; spec §4.4: `loop=0` is the repeat-indefinitely count. -/
def loopDecodesInfinite (n : Int) : Prop := n = 0

/-- Modelled from the spec: spec §6 declares a written loop-count flag of
`-1` or `1` to mean the animation plays exactly once. -/
def playsExactlyOnce (n : Int) : Prop := n = -1 ∨ n = 1

/-! ### Concrete environments and inputs used by witnesses and counterexamples -/

/-- A 2×2 opaque RGB source image. -/
def rawGray : RawImg := ⟨2, 2, PMode.rgb, false, fun _ _ => ⟨⟨7, 7, 7⟩, 255⟩⟩

/-- A healthy runtime: decoding always succeeds, every quantizer backend is
present and succeeds, returning a 2-entry palette (as PIL does for a raster
with two distinct colors). -/
def envOK : Env :=
  ⟨fun _ => .ok rawGray,
   fun bg _ => bg,
   fun im _ _ => im.pix,
   fun _ => true,
   fun _ im _ _ => .ok ⟨im, 2⟩,
   fun im _ _ => im.pix⟩

/-- The default keyword arguments of `build_gif_from_images`
(src/gif_utils.py lines 128-133). -/
def cfgD : ImgCfg := ⟨1, true, true, some 450, 256, some "floyd_steinberg"⟩

/-- A single uploaded file. -/
def filesOne : List (String × Bytes) := [("a.png", [0])]

/-- Two uploaded files. -/
def filesTwo : List (String × Bytes) := [("a.png", [0]), ("b.png", [1])]

/-- A 1×1 white frame. -/
def imgW : Img := ⟨1, 1, fun _ _ => white⟩

/-- A runtime in which every quantizer backend is present but every attempt
raises; LIBIMAQUANT's failure message is "variant A". -/
def envAllFailA : Env :=
  ⟨fun _ => .ok rawGray,
   fun bg _ => bg,
   fun im _ _ => im.pix,
   fun _ => true,
   fun mo _ _ _ => .error (match mo with
     | some QMethod.LIBIMAGEQUANT => "liq failed: variant A"
     | some QMethod.FASTOCTREE => "octree failed"
     | some QMethod.MEDIANCUT => "mediancut failed"
     | none => "default failed"),
   fun im _ _ => im.pix⟩

/-- Identical to `envAllFailA` except for LIBIMAGEQUANT's failure message. -/
def envAllFailB : Env :=
  ⟨fun _ => .ok rawGray,
   fun bg _ => bg,
   fun im _ _ => im.pix,
   fun _ => true,
   fun mo _ _ _ => .error (match mo with
     | some QMethod.LIBIMAGEQUANT => "liq failed: variant B"
     | some QMethod.FASTOCTREE => "octree failed"
     | some QMethod.MEDIANCUT => "mediancut failed"
     | none => "default failed"),
   fun im _ _ => im.pix⟩

/-- A runtime whose quantizer honors the documented contract "at most the
requested number of palette entries": it yields a 2-entry palette whenever at
least 2 colors are requested and fails otherwise. -/
def envPost : Env :=
  ⟨fun _ => .ok rawGray,
   fun bg _ => bg,
   fun im _ _ => im.pix,
   fun _ => true,
   fun _ im c _ => if 2 ≤ c then .ok ⟨im, 2⟩ else .error "too few colors",
   fun im _ _ => im.pix⟩

/-- The palette seed built by `envOK` for a single 1×1 frame with a requested
color count of 1 (the quantizer is invoked with the clamped count 2 and
returns a 2-entry palette). -/
def c8seed : PImage :=
  match (build_palette_seed_from_frames envOK [imgW] 1 12).1 with
  | .ok p => p
  | .error _ => ⟨emptyImg, 0⟩

/-- The palette seed built by `envPost` for a single 1×1 frame at the default
256 colors. -/
def c8p : PImage :=
  match (build_palette_seed_from_frames envPost [imgW] 256 12).1 with
  | .ok p => p
  | .error _ => ⟨emptyImg, 0⟩

/-- A runtime whose quantizer echoes its input raster back (palette of 8
entries), exposing the composite raster the pipeline quantizes. -/
def envEcho : Env :=
  ⟨fun _ => .ok rawGray,
   fun bg _ => bg,
   fun im _ _ => im.pix,
   fun _ => true,
   fun _ im _ _ => .ok ⟨im, 8⟩,
   fun im _ _ => im.pix⟩

/-- Two frames of different sizes: a 1×2 white first frame and a 1×1 red
second frame. -/
def c10frames : List Img := [⟨1, 2, fun _ _ => white⟩, ⟨1, 1, fun _ _ => ⟨255, 0, 0⟩⟩]

/-- The composite raster `_build_palette_seed_from_frames` hands to the
quantizer for `c10frames` (recovered through the echoing runtime). -/
def c10seedImg : Img :=
  match (build_palette_seed_from_frames envEcho c10frames 8 12).1 with
  | .ok p => p.img
  | .error _ => emptyImg

/-- The encoder invoked with an inverted clip window: start 2.0s, end 1.0s. -/
def vcBadClip : VideoCmds :=
  build_gif_from_video_ffmpeg 8 (some 450) true (some 2) (some 1) 64 "none"

/-- `build_gif_from_images` keyword arguments with `loop_forever=False`. -/
def cfgOnce : ImgCfg := ⟨1/2, false, true, some 450, 256, some "none"⟩

/-- Whether an encode result is an actual encoded animation. -/
def encodedOf (r : Except PipeErr (Option GifRec)) : Bool :=
  match r with
  | .ok (some _) => true
  | _ => false

/-- The animation record produced for a single uploaded file under `envOK`. -/
def gW1 : GifRec :=
  match build_gif_from_images envOK filesOne cfgD with
  | .ok (some g) => g
  | _ => default

/-- The animation record produced for two uploaded files with
`loop_forever=False` under `envOK`. -/
def gW2 : GifRec :=
  match build_gif_from_images envOK filesTwo cfgOnce with
  | .ok (some g) => g
  | _ => default

/-- The normalized frames for two uploaded files under `envOK`. -/
def fs0Two : List Img :=
  match normalizeAll envOK filesTwo cfgD.maxWidth with
  | .ok l => l
  | .error _ => []

/-- The animation record produced for two uploaded files under `envOK` with
the default configuration. -/
def gW3 : GifRec :=
  match build_gif_from_images envOK filesTwo cfgD with
  | .ok (some g) => g
  | _ => default

/-- Three 1×1 frames (used to exercise the sampling formula with n > s). -/
def frames5 : List Img := [imgW, imgW, imgW]

/-- Whether the paste window of the enumerated pick `pr` covers the stack
coordinate `(x, y)` (pastes happen at `(0, idx * h)`). -/
def slotCovers (frames : List Img) (h : Nat) (pr : Nat × Nat) (x y : Nat) : Prop :=
  x < (frames.getD pr.2 emptyImg).width
    ∧ pr.1 * h ≤ y ∧ y < pr.1 * h + (frames.getD pr.2 emptyImg).height

/-! ### Arithmetic helpers -/

theorem clampColors_ge (c : Int) : 2 ≤ clampColors c := by
  unfold clampColors; split_ifs <;> omega

theorem clampColors_le (c : Int) : clampColors c ≤ 256 := by
  unfold clampColors; split_ifs <;> omega

theorem clampColors_eq_self (c : Int) (h2 : 2 ≤ c) (h256 : c ≤ 256) :
    clampColors c = c := by
  unfold clampColors; split_ifs <;> omega

theorem clampColors_idem (c : Int) : clampColors (clampColors c) = clampColors c :=
  clampColors_eq_self _ (clampColors_ge c) (clampColors_le c)

/-! ### Characterization of the `_quantize_safe` attempt loop -/

/-- The error string carried by a failing method attempt (helper observer for
stating which causes reach the caller). -/
def qerrOf (env : Env) (im : Img) (c : Int) (m : QMethod) : String :=
  match env.quantize (some m) im c Dither.NONE with
  | .error e => e
  | .ok _ => ""

theorem qsAttempts_calls (env : Env) (im : Img) (c : Int) :
    ∀ (ms : List QMethod) (le : Option String),
    ∀ call ∈ (qsAttempts env im c ms le).2,
      call.colors = c ∧ call.dither = Dither.NONE := by
  intro ms
  induction ms with
  | nil =>
    intro le call hc
    cases hq : env.quantize none im c Dither.NONE <;>
      simp only [qsAttempts, hq, List.mem_singleton] at hc <;>
      subst hc <;> exact ⟨rfl, rfl⟩
  | cons m ms ih =>
    intro le call hc
    cases hq : env.quantize (some m) im c Dither.NONE with
    | ok r =>
      simp only [qsAttempts, hq, List.mem_singleton] at hc
      subst hc; exact ⟨rfl, rfl⟩
    | error e =>
      simp only [qsAttempts, hq, List.mem_cons] at hc
      rcases hc with hc | hc
      · subst hc; exact ⟨rfl, rfl⟩
      · exact ih (some e) call hc

theorem qsAttempts_order (env : Env) (im : Img) (c : Int) :
    ∀ (ms : List QMethod) (le : Option String),
    (qsAttempts env im c ms le).2.map QCall.method
      = (ms.map some ++ [none]).take (qsAttempts env im c ms le).2.length := by
  intro ms
  induction ms with
  | nil =>
    intro le
    cases hq : env.quantize none im c Dither.NONE <;>
      simp [qsAttempts, hq]
  | cons m ms ih =>
    intro le
    cases hq : env.quantize (some m) im c Dither.NONE with
    | ok r => simp [qsAttempts, hq]
    | error e =>
      simp only [qsAttempts, hq, List.map_cons, List.length_cons,
        List.cons_append, List.take_succ_cons, List.cons.injEq]
      exact ⟨trivial, ih (some e)⟩

theorem qsAttempts_ok (env : Env) (im : Img) (c : Int) :
    ∀ (ms : List QMethod) (le : Option String) (r : PImage),
    (qsAttempts env im c ms le).1 = .ok r →
    ∃ pre lastc, (qsAttempts env im c ms le).2 = pre ++ [lastc]
      ∧ env.quantize lastc.method im c Dither.NONE = .ok r
      ∧ ∀ cl ∈ pre, ∃ e, env.quantize cl.method im c Dither.NONE = .error e := by
  intro ms
  induction ms with
  | nil =>
    intro le r h
    cases hq : env.quantize none im c Dither.NONE with
    | ok r2 =>
      simp only [qsAttempts, hq, Except.ok.injEq] at h
      subst h
      exact ⟨[], ⟨none, c, Dither.NONE⟩, by simp [qsAttempts, hq], hq, by simp⟩
    | error e => simp [qsAttempts, hq] at h
  | cons m ms ih =>
    intro le r h
    cases hq : env.quantize (some m) im c Dither.NONE with
    | ok r2 =>
      simp only [qsAttempts, hq, Except.ok.injEq] at h
      subst h
      exact ⟨[], ⟨some m, c, Dither.NONE⟩, by simp [qsAttempts, hq], hq, by simp⟩
    | error e =>
      simp only [qsAttempts, hq] at h
      obtain ⟨pre, lastc, htr, hok, hpre⟩ := ih (some e) r h
      refine ⟨⟨some m, c, Dither.NONE⟩ :: pre, lastc, ?_, hok, ?_⟩
      · simp [qsAttempts, hq, htr]
      · intro cl hcl
        rcases List.mem_cons.1 hcl with hcl | hcl
        · subst hcl; exact ⟨e, hq⟩
        · exact hpre cl hcl

theorem qsAttempts_error (env : Env) (im : Img) (c : Int) :
    ∀ (ms : List QMethod) (le : Option String) (err : PipeErr),
    (qsAttempts env im c ms le).1 = .error err →
    (∀ mo ∈ ms.map some ++ [none], ∃ e, env.quantize mo im c Dither.NONE = .error e)
    ∧ ∃ efin, env.quantize none im c Dither.NONE = .error efin
      ∧ err = PipeErr.quantizeFailed
          (match ms.getLast? with
           | none => le
           | some m => some (qerrOf env im c m)) efin := by
  intro ms
  induction ms with
  | nil =>
    intro le err h
    cases hq : env.quantize none im c Dither.NONE with
    | ok r => simp [qsAttempts, hq] at h
    | error e =>
      simp only [qsAttempts, hq, Except.error.injEq] at h
      subst h
      refine ⟨?_, e, rfl, rfl⟩
      intro mo hmo
      simp only [List.map_nil, List.nil_append, List.mem_singleton] at hmo
      subst hmo
      exact ⟨e, hq⟩
  | cons m ms ih =>
    intro le err h
    cases hq : env.quantize (some m) im c Dither.NONE with
    | ok r => simp [qsAttempts, hq] at h
    | error e =>
      simp only [qsAttempts, hq] at h
      obtain ⟨hall, efin, hfin, herr⟩ := ih (some e) err h
      refine ⟨?_, efin, hfin, ?_⟩
      · intro mo hmo
        rcases List.mem_append.1 hmo with hmo | hmo
        · rcases List.mem_map.1 hmo with ⟨m2, hm2, rfl⟩
          rcases List.mem_cons.1 hm2 with hm2 | hm2
          · subst hm2; exact ⟨e, hq⟩
          · exact hall (some m2) (List.mem_append.2 (Or.inl (List.mem_map_of_mem some hm2)))
        · exact hall mo (List.mem_append.2 (Or.inr hmo))
      · cases ms with
        | nil =>
          simpa [qerrOf, hq] using herr
        | cons m2 ms2 =>
          rw [List.getLast?_cons_cons]
          exact herr

/-! ### C4 — quantization fallback chain -/

/-- C4 (amended): `_quantize_safe` tries the available methods in the fixed
order LIBIMAGEQUANT, FASTOCTREE, MEDIANCUT and finally a method-less call;
every attempt uses the clamped color count and no dithering; the first
success is returned and earlier failures are absorbed; only if every attempt
fails does it raise, and the raised error carries the *last* method failure
and the final default-attempt failure — not the full chain of all causes. -/
theorem C4_quantize_fallback (env : Env) (im : Img) (colors : Int) :
    ((quantize_safe env im colors).2.map QCall.method
      = ((methodOrder.filter fun m => env.hasMethod m).map some ++ [none]).take
          (quantize_safe env im colors).2.length)
    ∧ (∀ call ∈ (quantize_safe env im colors).2,
        call.colors = clampColors colors ∧ call.dither = Dither.NONE)
    ∧ (∀ r, (quantize_safe env im colors).1 = .ok r →
        ∃ pre lastc, (quantize_safe env im colors).2 = pre ++ [lastc]
          ∧ env.quantize lastc.method im (clampColors colors) Dither.NONE = .ok r
          ∧ ∀ cl ∈ pre, ∃ e,
              env.quantize cl.method im (clampColors colors) Dither.NONE = .error e)
    ∧ (∀ err, (quantize_safe env im colors).1 = .error err →
        (∀ mo ∈ (methodOrder.filter fun m => env.hasMethod m).map some ++ [none],
           ∃ e, env.quantize mo im (clampColors colors) Dither.NONE = .error e)
        ∧ ∃ efin, env.quantize none im (clampColors colors) Dither.NONE = .error efin
          ∧ err = PipeErr.quantizeFailed
              (match (methodOrder.filter fun m => env.hasMethod m).getLast? with
               | none => none
               | some m => some (qerrOf env im (clampColors colors) m)) efin) := by
  unfold quantize_safe
  exact ⟨qsAttempts_order env im (clampColors colors) _ none,
         qsAttempts_calls env im (clampColors colors) _ none,
         fun r h => qsAttempts_ok env im (clampColors colors) _ none r h,
         fun err h => qsAttempts_error env im (clampColors colors) _ none err h⟩

/-- C4 witness: in a healthy runtime the very first attempt succeeds and is
returned, with no failed attempts before it. -/
theorem C4_witness :
    ∃ pre lastc, (quantize_safe envOK imgW 128).2 = pre ++ [lastc]
      ∧ envOK.quantize lastc.method imgW (clampColors 128) Dither.NONE = .ok ⟨imgW, 2⟩
      ∧ ∀ cl ∈ pre, ∃ e,
          envOK.quantize cl.method imgW (clampColors 128) Dither.NONE = .error e :=
  (C4_quantize_fallback envOK imgW 128).2.2.1 ⟨imgW, 2⟩ rfl

/-- C4 counterexample to "carries the chain of all underlying causes": two
runtimes whose LIBIMAGEQUANT attempts fail with *different* causes produce
the *identical* final error — so the raised error cannot carry every
underlying cause (it holds only the last method failure and the final
default-attempt failure). -/
theorem C4_cex :
    (quantize_safe envAllFailA imgW 128).1 = (quantize_safe envAllFailB imgW 128).1
    ∧ qerrOf envAllFailA imgW 128 QMethod.LIBIMAGEQUANT
        ≠ qerrOf envAllFailB imgW 128 QMethod.LIBIMAGEQUANT :=
  ⟨rfl, by decide⟩

/-! ### C8 — color-count clamping -/

/-- C8 (amended): every quantizer invocation made while building the palette
for a sequence receives exactly the clamped color count `max(2, min(256,
requested))`, which always lies in [2, 256]; consequently — for a quantizer
honoring "at most the requested number of entries" — the built palette never
has more entries than the clamped count, and for a requested count already in
[2, 256] never more than the requested count.  (For a requested count below
2 the palette may have 2 entries, exceeding the request; see `C8_cex`.) -/
theorem C8_clamped_palette (env : Env) (frames : List Img) (colors : Int) (s : Nat)
    (henv : ∀ mo im c d r, env.quantize mo im c d = .ok r → (r.paletteSize : Int) ≤ c) :
    (∀ call ∈ (build_palette_seed_from_frames env frames colors s).2,
       call.colors = clampColors colors ∧ 2 ≤ call.colors ∧ call.colors ≤ 256)
    ∧ (∀ p, (build_palette_seed_from_frames env frames colors s).1 = .ok p →
        (p.paletteSize : Int) ≤ clampColors colors
        ∧ (2 ≤ colors → colors ≤ 256 → (p.paletteSize : Int) ≤ colors)) := by
  by_cases hf : frames.isEmpty
  · constructor
    · intro call hc
      simp [build_palette_seed_from_frames, hf] at hc
    · intro p hp
      simp [build_palette_seed_from_frames, hf] at hp
  · have hmain :
        build_palette_seed_from_frames env frames colors s
          = quantize_safe env
              (buildStack frames (palettePicks frames.length s)
                (frames.headD emptyImg).width (frames.headD emptyImg).height)
              (clampColors colors) := by
      simp [build_palette_seed_from_frames, hf]
    constructor
    · intro call hc
      rw [hmain] at hc
      have h1 := qsAttempts_calls env _ (clampColors (clampColors colors)) _ none call
        (by simpa [quantize_safe] using hc)
      rw [clampColors_idem] at h1
      exact ⟨h1.1, by rw [h1.1]; exact clampColors_ge colors,
             by rw [h1.1]; exact clampColors_le colors⟩
    · intro p hp
      rw [hmain] at hp
      obtain ⟨pre, lastc, htr, hok, hpre⟩ :=
        qsAttempts_ok env _ (clampColors (clampColors colors)) _ none p
          (by simpa [quantize_safe] using hp)
      have hle := henv _ _ _ _ _ hok
      rw [clampColors_idem] at hle
      refine ⟨hle, fun h2 h256 => ?_⟩
      rwa [clampColors_eq_self colors h2 h256] at hle

/-- C8 witness: with a contract-honoring quantizer and the default request of
256 colors, the built palette has at most the (clamped = requested) count. -/
theorem C8_witness :
    (c8p.paletteSize : Int) ≤ clampColors 256 ∧ (c8p.paletteSize : Int) ≤ 256 := by
  have henv : ∀ mo im c d r, envPost.quantize mo im c d = .ok r →
      (r.paletteSize : Int) ≤ c := by
    intro mo im c d r hr
    simp only [envPost] at hr
    split at hr
    · cases hr
      rename_i hc
      exact_mod_cast hc
    · exact absurd hr (by simp)
  have h := (C8_clamped_palette envPost [imgW] 256 12 henv).2 c8p rfl
  exact ⟨h.1, h.2 (by decide) (by decide)⟩

/-- C8 counterexample to "never has more entries than the requested color
count": a requested count of 1 is clamped up to 2, and the quantizer (here
behaving as PIL does on a raster with at least two distinct colors) returns a
2-entry palette — more entries than the 1 that was requested. -/
theorem C8_cex :
    (build_palette_seed_from_frames envOK [imgW] 1 12).1 = .ok c8seed
    ∧ c8seed.paletteSize = 2 ∧ ¬(c8seed.paletteSize ≤ 1) :=
  ⟨rfl, rfl, by decide⟩

/-! ### C3 — clip-window validation -/

/-- C3 counterexample: with an inverted clip window (start 2.0s, end 1.0s)
`build_gif_from_video_ffmpeg` does not return any error — it silently drops
the duration arguments and still invokes both external filter passes. -/
theorem C3_cex :
    videoDurArgs (some 2) (some 1) = []
    ∧ (videoInvocations vcBadClip).length = 2
    ∧ vcBadClip.cmdPalette ≠ [] ∧ vcBadClip.cmdGif ≠ [] := by
  refine ⟨rfl, rfl, ?_, ?_⟩ <;> decide

/-- C3 (amended): the `end ≤ start` guard lives in the streamlit caller
(`vid_make` handler), which reports an error and never invokes the encoder;
`build_gif_from_video_ffmpeg` itself performs no clip validation — given
`end ≤ start` it omits the duration limit and still runs both external
passes. -/
theorem C3_clip_guard (clipStart clipEnd : Rat) (fps : Nat) (vw : Option Nat)
    (vl : Bool) (vc : Nat) (vd : String) (hle : clipEnd ≤ clipStart) :
    vid_make_handler true clipStart clipEnd fps vw vl vc vd
        = .error "clip range invalid: end must exceed start"
    ∧ videoDurArgs (some clipStart) (some clipEnd) = []
    ∧ (videoInvocations
        (build_gif_from_video_ffmpeg fps vw vl (some clipStart) (some clipEnd) vc vd)).length
        = 2 := by
  refine ⟨?_, ?_, rfl⟩
  · unfold vid_make_handler
    rw [if_pos ⟨rfl, hle⟩]
  · show (if clipEnd > clipStart then [Tok.s "-t", Tok.q (clipEnd - clipStart)] else []) = []
    exact if_neg (not_lt.mpr hle)

/-- C3 witness: the guard and the unvalidated encoder, at start 2.0s /
end 1.0s. -/
theorem C3_witness :
    vid_make_handler true 2 1 8 (some 450) true 64 "none"
        = .error "clip range invalid: end must exceed start"
    ∧ videoDurArgs (some 2) (some 1) = []
    ∧ (videoInvocations
        (build_gif_from_video_ffmpeg 8 (some 450) true (some 2) (some 1) 64 "none")).length
        = 2 :=
  C3_clip_guard 2 1 8 (some 450) true 64 "none" (by norm_num)

/-! ### C7 — identical filter prefixes across the two external passes -/

/-- C7: in each of the three two-pass encoders (src/video_utils.py,
src/app.py `make_gif_from_frames`, src/app.py `make_gif_from_video`) there is
one frame-rate/scale/pad filter string `p` such that the palette-generation
pass receives `p` followed by the palettegen stage and the palette-application
pass of the same request receives the character-for-character identical `p`
followed by the paletteuse stage. -/
theorem C7_filter_prefix_shared :
    (∀ (fps : Nat) (mw : Option Nat) (lf : Bool) (ss es : Option Rat)
       (colors : Nat) (dither : String), ∃ p : String,
      Tok.s (p ++ (",palettegen=stats_mode=full:max_colors=" ++ Nat.repr colors))
          ∈ (build_gif_from_video_ffmpeg fps mw lf ss es colors dither).cmdPalette
      ∧ Tok.s (p ++ ("[x];[x][1:v]paletteuse=dither=" ++ videoDitherName dither
            ++ ":diff_mode=rectangle"))
          ∈ (build_gif_from_video_ffmpeg fps mw lf ss es colors dither).cmdGif)
    ∧ (∀ (width : Nat) (frs : String) (colors : Nat) (dither : String)
         (ps : Bool) (pc : String) (li : Bool), ∃ p : String,
      Tok.s (p ++ (",palettegen=max_colors=" ++ Nat.repr colors))
          ∈ (make_gif_from_frames_cmds width frs colors dither ps pc li).pass1
      ∧ Tok.s (p ++ (" [x]; [x][1:v] paletteuse=dither=" ++ dither))
          ∈ (make_gif_from_frames_cmds width frs colors dither ps pc li).pass2)
    ∧ (∀ (width fps colors : Nat) (dither : String) (ps : Bool) (pc : String)
         (ssec dsec : Rat) (li : Bool), ∃ p : String,
      Tok.s (p ++ (",palettegen=max_colors=" ++ Nat.repr colors))
          ∈ (make_gif_from_video_cmds width fps colors dither ps pc ssec dsec li).pass1
      ∧ Tok.s (p ++ (" [x]; [x][1:v] paletteuse=dither=" ++ dither))
          ∈ (make_gif_from_video_cmds width fps colors dither ps pc ssec dsec li).pass2) := by
  refine ⟨fun fps mw lf ss es colors dither => ⟨videoFilterBase fps mw, ?_, ?_⟩,
          fun width frs colors dither ps pc li => ⟨appVf1 width ps pc, ?_, ?_⟩,
          fun width fps colors dither ps pc ssec dsec li =>
            ⟨appVfBase width fps ps pc, ?_, ?_⟩⟩ <;>
    simp [build_gif_from_video_ffmpeg, make_gif_from_frames_cmds,
      make_gif_from_video_cmds, videoVfPalette, videoVfGif]

/-! ### C9 — total dither-mode mapping -/

/-- C9: `_dither_mode` is a total mapping: after the source's lowercasing of
the (possibly missing) argument, exactly the strings "floyd_steinberg",
"floyd", "fs" select error diffusion, exactly "bayer" and "ordered" select
ordered dithering, and every other value — including `None` and the empty
string — selects no dithering; no input raises. -/
theorem C9_dither_total (s : Option String) :
    (dither_mode s = Dither.FLOYDSTEINBERG ↔
       (pyLower (s.getD "") = "floyd_steinberg" ∨ pyLower (s.getD "") = "floyd"
         ∨ pyLower (s.getD "") = "fs"))
    ∧ (dither_mode s = Dither.ORDERED ↔
       (pyLower (s.getD "") = "bayer" ∨ pyLower (s.getD "") = "ordered"))
    ∧ (dither_mode s = Dither.NONE ↔
       (¬(pyLower (s.getD "") = "floyd_steinberg" ∨ pyLower (s.getD "") = "floyd"
           ∨ pyLower (s.getD "") = "fs")
        ∧ ¬(pyLower (s.getD "") = "bayer" ∨ pyLower (s.getD "") = "ordered")))
    ∧ dither_mode none = Dither.NONE ∧ dither_mode (some "") = Dither.NONE := by
  refine ⟨?_, ?_, ?_, by decide, by decide⟩
  · unfold dither_mode
    dsimp only
    split_ifs with h1 h2
    · simpa using h1
    · simp [h1]
    · simp [h1]
  · unfold dither_mode
    dsimp only
    split_ifs with h1 h2
    · rcases h1 with h | h | h <;> rw [h] <;> decide
    · simpa using h2
    · simp [h2]
  · unfold dither_mode
    dsimp only
    split_ifs with h1 h2
    · exact iff_of_false (by decide) (fun hx => hx.1 h1)
    · exact iff_of_false (by decide) (fun hx => hx.2 h2)
    · exact iff_of_true rfl ⟨h1, h2⟩

/-! ### Structure of a successful `build_gif_from_images` run -/

theorem normalizeAll_length (env : Env) :
    ∀ (files : List (String × Bytes)) (mw : Option Nat) (fs : List Img),
    normalizeAll env files mw = .ok fs → fs.length = files.length := by
  intro files
  induction files with
  | nil =>
    intro mw fs h
    simp only [normalizeAll, Except.ok.injEq] at h
    subst h; rfl
  | cons f rest ih =>
    intro mw fs h
    unfold normalizeAll at h
    cases hd : env.decode f.2 with
    | error e => rw [hd] at h; exact absurd h (by simp)
    | ok raw =>
      rw [hd] at h
      cases hr : normalizeAll env rest mw with
      | error e => rw [hr] at h; exact absurd h (by simp)
      | ok tl =>
        rw [hr] at h
        simp only [Except.ok.injEq] at h
        subst h
        simp [ih mw tl hr]

theorem build_shape (env : Env) (files : List (String × Bytes)) (cfg : ImgCfg)
    (g : GifRec) (hb : build_gif_from_images env files cfg = .ok (some g)) :
    ∃ fs0 seed,
      normalizeAll env files cfg.maxWidth = .ok fs0
      ∧ files.isEmpty = false ∧ fs0.isEmpty = false
      ∧ (build_palette_seed_from_frames env
          (if cfg.unifyCanvas then unify_canvas fs0 white else fs0) cfg.colors 12).1
          = .ok seed
      ∧ g = ⟨(if cfg.unifyCanvas then unify_canvas fs0 white else fs0).map
               (fun im => quantizeToPalette env im seed (dither_mode cfg.dither)),
             pyRound (cfg.delay * 1000),
             (if cfg.loopForever then 0 else 1), false, 2⟩ := by
  unfold build_gif_from_images at hb
  by_cases hf : files.isEmpty = true
  · rw [if_pos hf] at hb; exact absurd hb (by simp)
  · rw [if_neg hf] at hb
    cases hn : normalizeAll env files cfg.maxWidth with
    | error e => rw [hn] at hb; exact absurd hb (by simp)
    | ok fs0 =>
      rw [hn] at hb
      dsimp only at hb
      by_cases hf0 : fs0.isEmpty = true
      · rw [if_pos hf0] at hb; exact absurd hb (by simp)
      · rw [if_neg hf0] at hb
        unfold buildFromFrames at hb
        cases hs : (build_palette_seed_from_frames env
            (if cfg.unifyCanvas then unify_canvas fs0 white else fs0) cfg.colors 12).1 with
        | error e => rw [hs] at hb; exact absurd hb (by simp)
        | ok seed =>
          rw [hs] at hb
          simp only [Except.ok.injEq, Option.some.injEq] at hb
          exact ⟨fs0, seed, rfl, by simpa using hf, by simpa using hf0, hs, hb.symm⟩

/-! ### C1 — minimum frame count -/

/-- C1 (amended): for the empty input list `build_gif_from_images` returns no
output (`None`) — it does not raise a typed error — and for *any* non-empty
list that decodes and quantizes successfully, including a single-frame list,
it returns an encoded animation with exactly one output frame per input file.
The 2-frame minimum exists only in the src/app.py button handler, which
refuses to invoke its encoder below 2 frames. -/
theorem C1_min_frames (env : Env) (cfg : ImgCfg) :
    build_gif_from_images env [] cfg = .ok none
    ∧ (∀ n, app_img_button_invokes n = true ↔ 2 ≤ n)
    ∧ ∀ (files : List (String × Bytes)) (g : GifRec),
        build_gif_from_images env files cfg = .ok (some g) →
        g.frames.length = files.length := by
  refine ⟨rfl, ?_, ?_⟩
  · intro n
    simp [app_img_button_invokes, Nat.not_lt]
  · intro files g hb
    obtain ⟨fs0, seed, hn, -, -, -, hg⟩ := build_shape env files cfg g hb
    subst hg
    simp only [List.length_map]
    have hnlen : fs0.length = files.length :=
      normalizeAll_length env files cfg.maxWidth fs0 hn
    split_ifs with hu
    · rw [← hnlen]
      unfold unify_canvas
      split_ifs <;> simp
    · exact hnlen

/-- C1 witness: empty input yields no output, and a successful 1-file run
yields a 1-frame animation. -/
theorem C1_witness :
    build_gif_from_images envOK [] cfgD = .ok none
    ∧ gW1.frames.length = filesOne.length :=
  ⟨(C1_min_frames envOK cfgD).1, (C1_min_frames envOK cfgD).2.2 filesOne gW1 rfl⟩

/-- C1 counterexample: a single-frame input (fewer than 2 decoded frames) is
happily encoded by `build_gif_from_images` — no `AssemblyError`/`ConfigError`
is signalled and an encoded animation is returned. -/
theorem C1_cex :
    filesOne.length < 2
    ∧ encodedOf (build_gif_from_images envOK filesOne cfgD) = true :=
  ⟨by decide, rfl⟩

/-! ### C2 — loop-count semantics -/

/-- C2: both encoders write loop count 0 when `loopForever` is true — the
repeat-indefinitely value — and loop count 1 when it is false, which under
the external container contract of spec §6 (0 = infinite, -1/1 = once) plays
exactly once. -/
theorem C2_loop_semantics :
    (∀ (env : Env) (files : List (String × Bytes)) (cfg : ImgCfg) (g : GifRec),
       build_gif_from_images env files cfg = .ok (some g) →
       g.loop = (if cfg.loopForever then 0 else 1)
       ∧ (cfg.loopForever = true → loopDecodesInfinite g.loop)
       ∧ (cfg.loopForever = false → playsExactlyOnce g.loop))
    ∧ (∀ (fps : Nat) (mw : Option Nat) (lf : Bool) (ss es : Option Rat)
         (colors : Nat) (dither : String), ∃ pre : List Tok,
        (build_gif_from_video_ffmpeg fps mw lf ss es colors dither).cmdGif
          = pre ++ [Tok.s "-loop", Tok.s (Int.repr (if lf then 0 else 1)),
                    Tok.s "-y", Tok.s "output.gif"]
        ∧ (lf = true → loopDecodesInfinite (if lf then 0 else 1))
        ∧ (lf = false → playsExactlyOnce (if lf then 0 else 1))) := by
  constructor
  · intro env files cfg g hb
    obtain ⟨fs0, seed, -, -, -, -, hg⟩ := build_shape env files cfg g hb
    subst hg
    refine ⟨rfl, ?_, ?_⟩
    · intro h; simp [h, loopDecodesInfinite]
    · intro h; simp [h, playsExactlyOnce]
  · intro fps mw lf ss es colors dither
    refine ⟨[Tok.s "ffmpeg"] ++ videoSsArgs ss ++ [Tok.s "-i", Tok.s "input_video.mp4"]
        ++ videoDurArgs ss es
        ++ [Tok.s "-i", Tok.s "palette.png", Tok.s "-lavfi",
            Tok.s (videoVfGif fps mw dither)], ?_, ?_, ?_⟩
    · simp [build_gif_from_video_ffmpeg]
    · intro h; simp [h, loopDecodesInfinite]
    · intro h; simp [h, playsExactlyOnce]

/-- C2 witness: a concrete `loop_forever=False` run writes loop count 1,
which the spec §6 contract decodes as "play exactly once". -/
theorem C2_witness : gW2.loop = 1 ∧ playsExactlyOnce gW2.loop :=
  have h := C2_loop_semantics.1 envOK filesTwo cfgOnce gW2 rfl
  ⟨by simpa using h.1, h.2.2 rfl⟩

/-! ### C5 — palette sampling formula -/

theorem range'_mul (st : Nat) : ∀ (k a : Nat),
    List.range' a k st = (List.range k).map (fun i => a + i * st) := by
  intro k
  induction k with
  | zero => intro a; simp
  | succ k ih =>
    intro a
    rw [List.range'_succ, List.range_succ_eq_map, List.map_cons, ih (a + st),
      List.map_map]
    simp only [Nat.zero_mul, Nat.add_zero, List.cons.injEq, true_and]
    apply List.map_congr_left
    intro i _
    simp only [Function.comp_apply, Nat.succ_eq_add_one]
    ring

theorem pyRangeStep_eq (n st : Nat) :
    pyRangeStep n st = (List.range ((n + st - 1) / st)).map (fun i => i * st) := by
  unfold pyRangeStep
  rw [range'_mul]
  simp

theorem palettePicks_eq (n s : Nat) :
    palettePicks n s = if n ≤ s then List.range n
      else (List.range (Nat.min s ((n + Nat.max 1 (n / s) - 1) / Nat.max 1 (n / s)))).map
             (fun i => i * Nat.max 1 (n / s)) := by
  unfold palettePicks
  split_ifs with h
  · rfl
  · rw [pyRangeStep_eq, ← List.map_take, List.take_range]

/-- C5: for a non-empty sequence of n frames and in-range color count,
palette construction samples exactly the indices `0, step, 2*step, ...` with
`step = max(1, n / s)` (integer division), truncated to at most `s` picks —
all `n` indices when `n ≤ s` — stacks the sampled frames vertically at x = 0
into one composite sized by the first frame, and quantizes that composite
with the requested color count and dithering disabled.  (The hypothesis
`1 ≤ s` reflects that Python `n // 0` would raise; the pipeline always uses
s = 12.) -/
theorem C5_palette_sampling (env : Env) (frames : List Img) (colors : Int)
    (s : Nat) (hne : frames ≠ []) (_hs : 1 ≤ s)
    (h2 : 2 ≤ colors) (h256 : colors ≤ 256) :
    build_palette_seed_from_frames env frames colors s
      = quantize_safe env
          (buildStack frames
            (if frames.length ≤ s then List.range frames.length
             else (List.range (Nat.min s
                 ((frames.length + Nat.max 1 (frames.length / s) - 1)
                   / Nat.max 1 (frames.length / s)))).map
               (fun i => i * Nat.max 1 (frames.length / s)))
            (frames.headD emptyImg).width (frames.headD emptyImg).height)
          colors
    ∧ ∀ call ∈ (build_palette_seed_from_frames env frames colors s).2,
        call.colors = colors ∧ call.dither = Dither.NONE := by
  have hfe : frames.isEmpty = false := by
    cases frames
    · exact absurd rfl hne
    · rfl
  have hmain :
      build_palette_seed_from_frames env frames colors s
        = quantize_safe env
            (buildStack frames (palettePicks frames.length s)
              (frames.headD emptyImg).width (frames.headD emptyImg).height)
            (clampColors colors) := by
    simp [build_palette_seed_from_frames, hfe]
  constructor
  · rw [hmain, palettePicks_eq, clampColors_eq_self colors h2 h256]
  · intro call hc
    rw [hmain] at hc
    have h1 := qsAttempts_calls env _ (clampColors (clampColors colors)) _ none call
      (by simpa [quantize_safe] using hc)
    rw [clampColors_idem, clampColors_eq_self colors h2 h256] at h1
    exact h1

/-- C5 witness: three frames sampled with s = 2 pick exactly the indices
`[0, 1]` (step = max(1, 3 / 2) = 1, truncated to 2 picks). -/
theorem C5_witness :
    build_palette_seed_from_frames envOK frames5 8 2
      = quantize_safe envOK (buildStack frames5 [0, 1] 1 1) 8 :=
  (C5_palette_sampling envOK frames5 8 2 (by simp [frames5]) (by decide)
    (by decide) (by decide)).1

/-! ### C6 — canvas unification invariant -/

theorem foldl_max_le (l : List Nat) : ∀ a : Nat,
    a ≤ l.foldl Nat.max a ∧ ∀ x ∈ l, x ≤ l.foldl Nat.max a := by
  induction l with
  | nil => intro a; exact ⟨Nat.le_refl a, by simp⟩
  | cons b l ih =>
    intro a
    constructor
    · exact Nat.le_trans (Nat.le_max_left a b) (ih (Nat.max a b)).1
    · intro x hx
      rcases List.mem_cons.1 hx with rfl | hx
      · exact Nat.le_trans (Nat.le_max_right a x) (ih (Nat.max a x)).1
      · exact (ih (Nat.max a b)).2 x hx

theorem unify_canvas_dims (frames : List Img) :
    ∀ f ∈ unify_canvas frames white,
      f.width = maxWidths frames ∧ f.height = maxHeights frames := by
  intro f hf
  unfold unify_canvas at hf
  by_cases he : frames.isEmpty = true
  · rw [if_pos he] at hf
    rw [List.isEmpty_iff] at he
    subst he
    simp at hf
  · rw [if_neg he] at hf
    dsimp only at hf
    rcases List.mem_map.1 hf with ⟨im, _, rfl⟩
    split_ifs with hsz
    · exact hsz
    · exact ⟨rfl, rfl⟩

theorem unify_canvas_pix (frames : List Img) (i x y : Nat)
    (hi : i < frames.length) (hx : x < maxWidths frames)
    (hy : y < maxHeights frames) :
    ((unify_canvas frames white).getD i emptyImg).pix x y
      = (if (maxWidths frames - (frames.getD i emptyImg).width) / 2 ≤ x
           ∧ x < (maxWidths frames - (frames.getD i emptyImg).width) / 2
                 + (frames.getD i emptyImg).width
           ∧ (maxHeights frames - (frames.getD i emptyImg).height) / 2 ≤ y
           ∧ y < (maxHeights frames - (frames.getD i emptyImg).height) / 2
                 + (frames.getD i emptyImg).height then
           (frames.getD i emptyImg).pix
             (x - (maxWidths frames - (frames.getD i emptyImg).width) / 2)
             (y - (maxHeights frames - (frames.getD i emptyImg).height) / 2)
         else white) := by
  have hne : ¬(frames.isEmpty = true) := by
    cases frames
    · simp at hi
    · simp
  unfold unify_canvas
  rw [if_neg hne]
  dsimp only
  have hget : ∀ (f : Img → Img), ((frames.map f).getD i emptyImg) = f (frames.getD i emptyImg) := by
    intro f
    rw [List.getD_eq_getElem _ _ (by simpa using hi), List.getElem_map,
      List.getD_eq_getElem _ _ hi]
  rw [hget]
  split_ifs with hsz hwin hwin
  · rw [hsz.1, hsz.2]
    simp
  · exfalso
    rw [hsz.1, hsz.2] at hwin
    simp only [Nat.sub_self, Nat.zero_div] at hwin
    omega
  · dsimp only [paste]
    rw [if_pos hwin]
  · dsimp only [paste, newImg]
    rw [if_neg hwin]

/-- C6: with `unify_canvas=True`, every frame handed to the quantizer — both
into palette construction and into per-frame remapping — has identical width
and height equal to the maxima across the (normalized) input sequence, and
each frame is center-padded onto a white-background canvas of that size (a
frame already at the maximum size passes through; a padded pixel outside the
centered window is the background color). -/
theorem C6_canvas_unification (env : Env) (files : List (String × Bytes))
    (cfg : ImgCfg) (fs0 : List Img) (g : GifRec)
    (hu : cfg.unifyCanvas = true)
    (hn : normalizeAll env files cfg.maxWidth = .ok fs0)
    (hb : build_gif_from_images env files cfg = .ok (some g)) :
    (unify_canvas fs0 white).length = fs0.length
    ∧ (∀ f ∈ unify_canvas fs0 white,
        f.width = maxWidths fs0 ∧ f.height = maxHeights fs0)
    ∧ (∀ f ∈ g.frames, f.width = maxWidths fs0 ∧ f.height = maxHeights fs0)
    ∧ ∀ i x y, i < fs0.length → x < maxWidths fs0 → y < maxHeights fs0 →
        ((unify_canvas fs0 white).getD i emptyImg).pix x y
          = (if (maxWidths fs0 - (fs0.getD i emptyImg).width) / 2 ≤ x
               ∧ x < (maxWidths fs0 - (fs0.getD i emptyImg).width) / 2
                     + (fs0.getD i emptyImg).width
               ∧ (maxHeights fs0 - (fs0.getD i emptyImg).height) / 2 ≤ y
               ∧ y < (maxHeights fs0 - (fs0.getD i emptyImg).height) / 2
                     + (fs0.getD i emptyImg).height then
               (fs0.getD i emptyImg).pix
                 (x - (maxWidths fs0 - (fs0.getD i emptyImg).width) / 2)
                 (y - (maxHeights fs0 - (fs0.getD i emptyImg).height) / 2)
             else white) := by
  obtain ⟨fs0', seed, hn', -, -, -, hg⟩ := build_shape env files cfg g hb
  have heq : fs0' = fs0 := by
    rw [hn'] at hn
    exact (Except.ok.inj hn)
  rw [heq] at hg
  refine ⟨?_, unify_canvas_dims fs0, ?_, ?_⟩
  · unfold unify_canvas
    split_ifs <;> simp
  · subst hg
    rw [hu]
    intro f hf
    simp only [if_true, List.mem_map] at hf
    rcases hf with ⟨im, him, rfl⟩
    exact unify_canvas_dims fs0 im him
  · intro i x y hi hx hy
    exact unify_canvas_pix fs0 i x y hi hx hy

/-- C6 witness: a concrete unified run preserves the frame count. -/
theorem C6_witness : (unify_canvas fs0Two white).length = fs0Two.length :=
  (C6_canvas_unification envOK filesTwo cfgD fs0Two gW3 rfl rfl rfl).1

/-! ### C10 — composite raster is dimensioned by the first frame -/

theorem foldl_paste_dims (frames : List Img) (h : Nat) :
    ∀ (l : List (Nat × Nat)) (acc : Img),
    ((l.foldl (fun a pr => paste a (frames.getD pr.2 emptyImg) 0 (pr.1 * h)) acc).width
        = acc.width)
    ∧ ((l.foldl (fun a pr => paste a (frames.getD pr.2 emptyImg) 0 (pr.1 * h)) acc).height
        = acc.height) := by
  intro l
  induction l with
  | nil => intro acc; exact ⟨rfl, rfl⟩
  | cons pr l ih =>
    intro acc
    exact ⟨(ih (paste acc (frames.getD pr.2 emptyImg) 0 (pr.1 * h))).1,
           (ih (paste acc (frames.getD pr.2 emptyImg) 0 (pr.1 * h))).2⟩

theorem foldl_paste_uncovered (frames : List Img) (h x y : Nat) :
    ∀ (l : List (Nat × Nat)) (acc : Img),
    (∀ pr ∈ l, ¬ slotCovers frames h pr x y) →
    (l.foldl (fun a pr => paste a (frames.getD pr.2 emptyImg) 0 (pr.1 * h)) acc).pix x y
      = acc.pix x y := by
  intro l
  induction l with
  | nil => intro acc _; rfl
  | cons pr l ih =>
    intro acc hnc
    rw [List.foldl_cons, ih _ (fun q hq => hnc q (List.mem_cons_of_mem pr hq))]
    have hcond : ¬(0 ≤ x ∧ x < 0 + (frames.getD pr.2 emptyImg).width
        ∧ pr.1 * h ≤ y ∧ y < pr.1 * h + (frames.getD pr.2 emptyImg).height) := by
      intro hcd
      exact hnc pr (List.mem_cons_self pr l)
        ⟨by simpa using hcd.2.1, hcd.2.2.1, hcd.2.2.2⟩
    dsimp only [paste]
    rw [if_neg hcond]

theorem foldl_paste_covered (frames : List Img) (h x y : Nat)
    (l1 l2 : List (Nat × Nat)) (pr : Nat × Nat) (acc : Img)
    (hc : slotCovers frames h pr x y)
    (hnc : ∀ q ∈ l2, ¬ slotCovers frames h q x y) :
    ((l1 ++ pr :: l2).foldl
        (fun a q => paste a (frames.getD q.2 emptyImg) 0 (q.1 * h)) acc).pix x y
      = (frames.getD pr.2 emptyImg).pix x (y - pr.1 * h) := by
  rw [List.foldl_append, List.foldl_cons, foldl_paste_uncovered frames h x y l2 _ hnc]
  dsimp only [paste]
  rw [if_pos ⟨Nat.zero_le x, by simpa using hc.1, hc.2.1, hc.2.2⟩]
  simp

/-- C10 (amended): the composite raster used for palette construction is
dimensioned by the first frame alone — width = first frame's width, height =
first frame's height × number of picks — and is exactly what is quantized;
each sampled frame is pasted at x = 0 into its slot (a later overlapping
paste wins); a coordinate covered by no paste window keeps the *default
fill of a newly allocated raster, black (0,0,0)* — not the pipeline's
background color. -/
theorem C10_composite_by_first_frame (env : Env) (frames : List Img)
    (colors : Int) (s : Nat) (hne : frames ≠ []) :
    ((buildStack frames (palettePicks frames.length s)
        (frames.headD emptyImg).width (frames.headD emptyImg).height).width
      = (frames.headD emptyImg).width)
    ∧ ((buildStack frames (palettePicks frames.length s)
        (frames.headD emptyImg).width (frames.headD emptyImg).height).height
      = (frames.headD emptyImg).height * (palettePicks frames.length s).length)
    ∧ build_palette_seed_from_frames env frames colors s
        = quantize_safe env
            (buildStack frames (palettePicks frames.length s)
              (frames.headD emptyImg).width (frames.headD emptyImg).height)
            (clampColors colors)
    ∧ (∀ x y, (∀ pr ∈ (palettePicks frames.length s).enum,
          ¬ slotCovers frames (frames.headD emptyImg).height pr x y) →
        (buildStack frames (palettePicks frames.length s)
          (frames.headD emptyImg).width (frames.headD emptyImg).height).pix x y
          = black)
    ∧ ∀ x y l1 pr l2, (palettePicks frames.length s).enum = l1 ++ pr :: l2 →
        slotCovers frames (frames.headD emptyImg).height pr x y →
        (∀ q ∈ l2, ¬ slotCovers frames (frames.headD emptyImg).height q x y) →
        (buildStack frames (palettePicks frames.length s)
          (frames.headD emptyImg).width (frames.headD emptyImg).height).pix x y
          = (frames.getD pr.2 emptyImg).pix x
              (y - pr.1 * (frames.headD emptyImg).height) := by
  have hfe : frames.isEmpty = false := by
    cases frames
    · exact absurd rfl hne
    · rfl
  refine ⟨(foldl_paste_dims frames _ _ _).1, (foldl_paste_dims frames _ _ _).2,
    by simp [build_palette_seed_from_frames, hfe], ?_, ?_⟩
  · intro x y hnc
    exact foldl_paste_uncovered frames _ x y _ _ hnc
  · intro x y l1 pr l2 hdec hc hnc
    unfold buildStack
    rw [hdec]
    exact foldl_paste_covered frames _ x y l1 l2 pr _ hc hnc

/-- C10 witness: for two frames of differing sizes the composite is 1 wide
(the first frame's width) and 4 = 2 × 2 tall. -/
theorem C10_witness :
    (buildStack c10frames (palettePicks c10frames.length 12) 1 2).width = 1
    ∧ (buildStack c10frames (palettePicks c10frames.length 12) 1 2).height
        = 2 * (palettePicks c10frames.length 12).length :=
  ⟨(C10_composite_by_first_frame envEcho c10frames 8 12 (by simp [c10frames])).1,
   (C10_composite_by_first_frame envEcho c10frames 8 12 (by simp [c10frames])).2.1⟩

/-- C10 counterexample to "background-colored filler rows": with a 1×2 first
frame and a 1×1 second frame the composite's bottom row is not covered by any
pasted frame; its pixel is the default fill (0,0,0) — black — and not the
pipeline's background color (255,255,255). -/
theorem C10_cex : c10seedImg.pix 0 3 = black ∧ black ≠ white :=
  ⟨rfl, by decide⟩
